import Mathlib

/-!
Verification of the naten repository against its natural-language
specification.

Two bodies of code are embedded here.

1. The ClipJS clipboard MCP server, `mcp/clipjs/src/server.js`:
   the functions `readClipboardText` and `writeClipboardImage` are
   translated directly from the JavaScript source.  Strings are modelled
   as `List Char` (one element per UTF-16 code unit of the JS string;
   all characters appearing here are single code units), and the
   filesystem visible to `writeClipboardImage` as a `List String` of
   existing paths.  External effects (the PowerShell invocation, the
   `fs.writeFileSync` call) are modelled by Boolean oracles saying
   whether the external call succeeded.

2. The Interactive Tool Session Manager.  Its implementation
   (`toolsession` `server.py`) is not present in the repository — only
   its README and the specification describe it — so the session core
   is modelled from the spec (each such definition carries a
   `Modelled from the spec:` doc comment).

The MCP tool tables of the two ToolSession server variants are
transcribed from `mcp/toolsession/README.md`.
-/

/-! ## ClipJS: `readClipboardText` (server.js lines 180–196) -/

/-- Digit grouping for a digit list given least-significant first:
inserts a comma after every three digits, as `Number.toLocaleString()`
does in the default `en-US` locale used by Node. -/
def groupRev : List Char → List Char
  | [] => []
  | [a] => [a]
  | [a, b] => [a, b]
  | [a, b, c] => [a, b, c]
  | a :: b :: c :: rest => a :: b :: c :: ',' :: groupRev rest

/-- JavaScript `n.toLocaleString()` for a natural number in the default
`en-US` locale: decimal digits with thousands separators. -/
def toLocaleString (n : Nat) : List Char :=
  (groupRev (Nat.toDigits 10 n).reverse).reverse

/-- Message returned by `readClipboardText` when `!text` (empty clipboard). -/
def emptyClipboardMsg : List Char :=
  "📋 Clipboard is empty or contains no text".data

/-- Header of the full-text reply of `readClipboardText`. -/
def fullTextHeader : List Char := "📋 **Clipboard Text:**\n\n".data

/-- Header of the truncated reply, up to the interpolated character count. -/
def truncHeader : List Char := "📋 **Clipboard Text** (truncated from ".data

/-- Middle piece of the truncated reply, between the character count and
the truncated text. -/
def truncMid : List Char := " chars):\n\n".data

/-- Tail of the truncated reply, after the first 10000 characters. -/
def truncTail : List Char := "...\n\n*(truncated)*".data

/-- `readClipboardText` from `server.js` lines 180–196, as a function of
the clipboard text returned by `clipboardy.read()`:
empty text yields the informational empty-clipboard message; text longer
than 10000 characters yields the truncated reply built from
`text.substring(0, 10000)` and `text.length.toLocaleString()`; otherwise
the text is returned in full after the header. -/
def readClipboardText (text : List Char) : List Char :=
  if text = [] then emptyClipboardMsg
  else if 10000 < text.length then
    truncHeader ++ toLocaleString text.length ++ truncMid
      ++ text.take 10000 ++ truncTail
  else fullTextHeader ++ text

/-! ## ClipJS: `writeClipboardImage` (server.js lines 252–307) -/

/-- The base64 alphabet, in value order. -/
def base64Alphabet : List Char :=
  "ABCDEFGHIJKLMNOPQRSTUVWXYZabcdefghijklmnopqrstuvwxyz0123456789+/".data

/-- Value of one base64 character; `none` for a character outside the
alphabet (including `=` padding, whitespace, or arbitrary garbage). -/
def b64Val (c : Char) : Option Nat := base64Alphabet.findIdx? (· == c)

/-- Reassemble bytes from a list of 6-bit values, four values giving
three bytes; a leftover of three values gives two bytes, of two values
one byte, and a single leftover value is dropped — exactly the lenient
behaviour of Node `Buffer.from(s, 'base64')`. -/
def decodeGroups : List Nat → List Nat
  | a :: b :: c :: d :: rest =>
      (a * 4 + b / 16) :: ((b % 16) * 16 + c / 4) :: ((c % 4) * 64 + d)
        :: decodeGroups rest
  | [a, b, c] => [a * 4 + b / 16, (b % 16) * 16 + c / 4]
  | [a, b] => [a * 4 + b / 16]
  | _ => []

/-- Node `Buffer.from(s, 'base64')`: characters outside the base64
alphabet are silently ignored and the rest is decoded.  This function is
total — Node never throws here, for any input string — so the
`catch` branch in `server.js` lines 263–265 (message
`❌ Invalid base64 image data`) is unreachable. -/
def base64DecodeLenient (s : List Char) : List Nat :=
  decodeGroups (s.filterMap b64Val)

/-- `Math.round(n / 1024)` for a natural byte count `n`
(`server.js` line 291). -/
def jsRound1024 (n : Nat) : Nat := (n + 512) / 1024

/-- Header of the success reply of `writeClipboardImage`. -/
def imageWrittenHeader : List Char := "✅ **Image Written to Clipboard:**\n\n".data

/-- Header of the reply of the `catch` branch around the file write and
PowerShell invocation (`server.js` line 299). -/
def copyErrorHeader : List Char := "❌ Error copying image to clipboard: ".data

/-- Header of the invalid-base64 reply (`server.js` line 264).  Dead
code at runtime: Node `Buffer.from(s, 'base64')` never throws. -/
def invalidBase64Header : List Char := "❌ Invalid base64 image data: ".data

/-- Reply of `writeClipboardImage` on a non-Windows platform. -/
def notWindowsWriteMsg : List Char :=
  "❌ Image clipboard writing is only supported on Windows".data

/-- `writeClipboardImage` from `server.js` lines 252–307.
`imageData`/`fmt` are the call arguments; `isWin` is
`process.platform === 'win32'`; `tempFile` the name produced from
`os.tmpdir()` and `Date.now()`; `writeOk` whether `fs.writeFileSync`
succeeds (when it fails it creates no file); `psOk` whether the
PowerShell clipboard invocation succeeds; `errDetail` the message of the
caught error; `fs` the set of existing files.  Returns the reply text
and the filesystem after the call.  The `catch` around
`Buffer.from(imageData, 'base64')` is not a branch here because that
call is total in Node (see `base64DecodeLenient`). -/
def writeClipboardImage (imageData fmt : List Char) (isWin : Bool)
    (tempFile : String) (writeOk psOk : Bool) (errDetail : List Char)
    (fs : List String) : List Char × List String :=
  if isWin then
    let imageBuffer := base64DecodeLenient imageData
    if writeOk then
      let fs1 := tempFile :: fs
      if psOk then
        (imageWrittenHeader ++ fmt ++ " image (".data
           ++ Nat.toDigits 10 (jsRound1024 imageBuffer.length)
           ++ " KB) written successfully".data,
         fs1.erase tempFile)
      else
        (copyErrorHeader ++ errDetail,
         if tempFile ∈ fs1 then fs1.erase tempFile else fs1)
    else
      (copyErrorHeader ++ errDetail,
       if tempFile ∈ fs then fs.erase tempFile else fs)
  else
    (notWindowsWriteMsg, fs)

/-! ## ToolSession README tool tables -/

/-- The MCP tool table of the persistent-session ToolSession variant,
`mcp/toolsession/README.md` lines 31–37. -/
def persistentVariantTools : List String :=
  ["execute_command", "get_output", "execute_script", "get_status",
   "clear_output"]

/-- The MCP tool table of the stateless ToolSession variant,
`mcp/toolsession/README.md` lines 241–248. -/
def statelessVariantTools : List String :=
  ["start_session", "input", "output", "script", "session_status",
   "stop_session"]

/-! ## Session core, modelled from the spec (the ToolSession server
implementation is not present in the repository) -/

/-- Modelled from the spec: the Session state machine states of §4.4
(the ToolSession server implementation is missing from the repository). -/
inductive SessionState
  | NotStarted
  | Starting
  | Ready
  | Busy
  | TimedOut
  | Crashed
  | Stopped
deriving DecidableEq

/-- Modelled from the spec: the error taxonomy of §7 (the ToolSession
server implementation is missing from the repository). -/
inductive SessionError
  | LaunchError
  | UnknownToolError
  | PipeClosedError
  | PromptTimeoutError
  | SessionBusyError
  | SessionNotReadyError
  | TempFileError
  | SessionStoppedError
  | CrashedError
deriving DecidableEq

/-- Modelled from the spec: one poll tick observed while a command
submission waits for the prompt (§4.3).  Each tick either delivers the
chunk the Output Monitor appended since the last poll (possibly empty),
or observes a `stop_session` request (§5 Cancellation), or observes the
process dying (read error / end-of-stream, §4.2).  The tick list passed
to a submission is the trace of polls before the `timeout` deadline
elapses; exhausting it means the timeout elapsed. -/
inductive TickEvent
  | chunk (data : List Char)
  | stopRequested
  | processDied
deriving DecidableEq

/-- Modelled from the spec: the outcome of the prompt-wait loop.  On
success it carries the output segment produced since the pre-submission
offset and the index of the accepted marker match. -/
inductive WaitResult
  | ok (segment : List Char) (matchPos : Nat)
  | timedOut
  | stopped
  | crashed
deriving DecidableEq

/-- Whitespace tolerated after a prompt marker at the tail of the
buffer (§4.3: "tolerate trailing whitespace/newline"). -/
def isBlankChar (c : Char) : Bool :=
  c = ' ' || c = '\n' || c = '\r' || c = '\t'

/-- Modelled from the spec (§4.3): the marker matches at index `i` of
the buffer when the marker is a prefix of the buffer from `i` on and
only whitespace follows it (the marker is "positioned at or near the
end" of the buffered output). -/
def promptMatchAt (marker buf : List Char) (i : Nat) : Bool :=
  marker.isPrefixOf (buf.drop i)
    && (buf.drop (i + marker.length)).all isBlankChar

/-- Modelled from the spec (§4.3 tie-break policy): the first marker
match whose index is at least `offset`, the buffer length recorded just
before the command was written.  Matches lying entirely in
pre-submission history are never considered. -/
def findQualifying (marker buf : List Char) (offset : Nat) : Option Nat :=
  (List.range (buf.length + 1)).find?
    (fun i => decide (offset ≤ i) && promptMatchAt marker buf i)

/-- Modelled from the spec (§4.3 algorithm): the poll loop run by a
command submission.  At each tick it appends the newly arrived chunk,
scans for a qualifying prompt match, and on success returns the output
segment produced strictly after the pre-submission `offset` together
with the final buffer.  A `stop_session` request ends the wait with
`stopped`; process death ends it with `crashed`; an exhausted tick list
means the timeout elapsed. -/
def waitLoop (marker : List Char) (offset : Nat) :
    List Char → List TickEvent → WaitResult × List Char
  | buf, [] => (.timedOut, buf)
  | buf, e :: rest =>
    match e with
    | .stopRequested => (.stopped, buf)
    | .processDied => (.crashed, buf)
    | .chunk d =>
      let buf2 := buf ++ d
      match findQualifying marker buf2 offset with
      | some i => (.ok (buf2.drop offset) i, buf2)
      | none => waitLoop marker offset buf2 rest

/-- Modelled from the spec (§3 Session): the session record.  `buffer`
is the shared output buffer, `lastOffset` the byte offset recorded at
the last command submission, `marker` the configured prompt marker,
`childAlive` whether the child process is running, `tempFiles` the
script staging files currently existing (§4.5). -/
structure Session where
  state : SessionState
  buffer : List Char
  lastOffset : Nat
  marker : List Char
  childAlive : Bool
  tempFiles : List String
deriving DecidableEq

/-- Modelled from the spec (§4.3, §4.4, §6 `submit_command`): submit a
command while tracking the pre-submission offset.  A submission while
`Busy` is rejected with `SessionBusyError`; outside `Ready` with
`SessionNotReadyError`.  From `Ready` the offset is recorded as the
buffer length just before the command is written to the child, and the
wait loop runs over the poll trace `events`.  The command text itself
goes to the child process (the environment), whose responses arrive
through the tick chunks. -/
def submitCommand (s : Session) (cmd : List Char) (events : List TickEvent) :
    Except SessionError (List Char) × Session :=
  match s.state with
  | .Busy => (.error .SessionBusyError, s)
  | .Ready =>
    let offset := s.buffer.length
    match waitLoop s.marker offset s.buffer events with
    | (.ok seg _, buf2) =>
      (.ok seg, { s with state := .Ready, buffer := buf2, lastOffset := offset })
    | (.timedOut, buf2) =>
      (.error .PromptTimeoutError,
       { s with state := .TimedOut, buffer := buf2, lastOffset := offset })
    | (.stopped, buf2) =>
      (.error .SessionStoppedError,
       { s with state := .Stopped, buffer := buf2, lastOffset := offset,
                childAlive := false })
    | (.crashed, buf2) =>
      (.error .CrashedError,
       { s with state := .Crashed, buffer := buf2, lastOffset := offset,
                childAlive := false })
  | _ => (.error .SessionNotReadyError, s)

/-- Modelled from the spec (§4.2): one read observation of the Output
Monitor while no submission is waiting: either a data chunk, appended
to the shared buffer, or a read error / end-of-stream, which marks the
Session `Crashed` and stops the monitor. -/
inductive ReadEvent
  | data (chunk : List Char)
  | readError
  | endOfStream
deriving DecidableEq

/-- Modelled from the spec (§4.2 Output Monitor): appends arriving data
to the buffer; on read error or end-of-stream marks the Session
`Crashed`, whatever its previous state. -/
def monitorStep (s : Session) (e : ReadEvent) : Session :=
  match e with
  | .data chunk => { s with buffer := s.buffer ++ chunk }
  | .readError => { s with state := .Crashed, childAlive := false }
  | .endOfStream => { s with state := .Crashed, childAlive := false }

/-- Modelled from the spec (§4.3 timeout recovery, §6 `get_status`):
reports the session state; a `TimedOut` session self-heals to `Ready`
when a qualifying prompt match has appeared after the offset of the
timed-out command.  `Crashed` and `Stopped` are terminal. -/
def getStatus (s : Session) : SessionState × Session :=
  match s.state with
  | .TimedOut =>
    match findQualifying s.marker s.buffer s.lastOffset with
    | some _ => (.Ready, { s with state := .Ready })
    | none => (.TimedOut, s)
  | st => (st, s)

/-- Modelled from the spec (§5 Cancellation, §6 `stop_session`):
forcefully terminates the process regardless of Busy/Ready state and
transitions to `Stopped`. -/
def stopSession (s : Session) : Session :=
  { s with state := .Stopped, childAlive := false }

/-- Modelled from the spec (§4.4 `Crashed`, §9): an explicit restart
creates a fresh Session with the same configuration: empty buffer, a
freshly spawned child, state `Starting`. -/
def restartSession (s : Session) : Session :=
  { state := .Starting, buffer := [], lastOffset := 0, marker := s.marker,
    childAlive := true, tempFiles := [] }

/-- The script-path placeholder of the wrapper command template
(README: `"command": "source {script}"`). -/
def scriptPlaceholder : List Char := "{script}".data

/-- Modelled from the spec (§4.5): substitutes the staged script path
for the first occurrence of the placeholder in the wrapper template. -/
def substTemplate : List Char → List Char → List Char
  | [], _ => []
  | c :: rest, path =>
    if scriptPlaceholder.isPrefixOf (c :: rest) then
      path ++ (c :: rest).drop scriptPlaceholder.length
    else c :: substTemplate rest path

/-- Modelled from the spec (§4.5 Script Execution): writes the script
body to a newly created temporary file, substitutes its path into the
wrapper template, submits the wrapper command through the normal
single-command path, and removes the temporary file afterwards on every
exit path (success, timeout, stop, crash). -/
def submitScript (s : Session) (body wrapperTemplate : List Char)
    (tempName : String) (events : List TickEvent) :
    Except SessionError (List Char) × Session :=
  let staged := { s with tempFiles := tempName :: s.tempFiles }
  let cmd := substTemplate wrapperTemplate tempName.data
  let res := submitCommand staged cmd events
  (res.1, { res.2 with tempFiles := res.2.tempFiles.erase tempName })

/-! ## OutputBuffer (capped), modelled from the spec §3 -/

/-- Modelled from the spec (§3 OutputBuffer): an
unbounded-but-capped ordered sequence of characters. -/
structure OutputBuffer where
  cap : Nat
  data : List Char
deriving DecidableEq

/-- Modelled from the spec (§3, §4.2): the Output Monitor appends each
chunk at the end; when the cap is exceeded, truncation drops exactly
the oldest bytes. -/
def pushChunk (b : OutputBuffer) (chunk : List Char) : OutputBuffer :=
  let d := b.data ++ chunk
  { b with data := d.drop (d.length - b.cap) }

/-- Fold of `pushChunk` over a chunk sequence. -/
def pushAll (b : OutputBuffer) (chunks : List (List Char)) : OutputBuffer :=
  chunks.foldl pushChunk b


/-! ## Concrete sessions and runs used by the witnesses -/

/-- A freshly started idle session whose prompt marker is `>`. -/
def exReady : Session :=
  { state := .Ready, buffer := [], lastOffset := 0, marker := ['>'],
    childAlive := true, tempFiles := [] }

/-- `exReady` after one successful command whose fresh output was
`4\n>`. -/
def exAfter1 : Session :=
  { state := .Ready, buffer := "4\n>".data, lastOffset := 0,
    marker := ['>'], childAlive := true, tempFiles := [] }

/-- `exAfter1` after a second successful command whose fresh output was
`6>`. -/
def exAfter2 : Session :=
  { state := .Ready, buffer := "4\n>6>".data, lastOffset := 3,
    marker := ['>'], childAlive := true, tempFiles := [] }

/-- An idle session whose history already ends with a stale prompt
marker. -/
def exStale : Session :=
  { state := .Ready, buffer := "x>".data, lastOffset := 0,
    marker := ['>'], childAlive := true, tempFiles := [] }

/-- A session with a command in flight. -/
def exBusy : Session :=
  { state := .Busy, buffer := [], lastOffset := 0, marker := ['>'],
    childAlive := true, tempFiles := [] }

/-- A session whose last command timed out at offset 0. -/
def exTimedOut : Session :=
  { state := .TimedOut, buffer := [], lastOffset := 0, marker := ['>'],
    childAlive := true, tempFiles := [] }

/-- A session whose process died. -/
def exCrashed : Session :=
  { state := .Crashed, buffer := [], lastOffset := 0, marker := ['>'],
    childAlive := false, tempFiles := [] }

/-- A clipboard text of 10001 identical characters, exceeding the
10000-character truncation threshold of `readClipboardText`. -/
def longText : List Char := List.replicate 10001 'a'

/-! ## Helper lemmas -/

/-- A qualifying prompt match lies at or after the recorded offset. -/
theorem findQualifying_le (marker buf : List Char) (offset i : Nat)
    (h : findQualifying marker buf offset = some i) :
    offset ≤ i ∧ promptMatchAt marker buf i = true := by
  have h2 := List.find?_some h
  simp only [Bool.and_eq_true, decide_eq_true_eq] at h2
  exact h2

/-- A nonempty marker has no qualifying match when the offset is at or
beyond the end of the buffer: the qualifying region holds no bytes. -/
theorem findQualifying_stale (marker buf : List Char) (offset : Nat)
    (hm : marker ≠ []) (ho : buf.length ≤ offset) :
    findQualifying marker buf offset = none := by
  rw [findQualifying]
  rw [List.find?_eq_none]
  intro i _
  simp only [Bool.and_eq_true, decide_eq_true_eq, not_and]
  intro hoff
  have hd : buf.drop i = [] := List.drop_eq_nil_of_le (le_trans ho hoff)
  rw [promptMatchAt, hd]
  cases marker with
  | nil => exact absurd rfl hm
  | cons c cs => simp [List.isPrefixOf]

/-- Unfolding equation of `waitLoop` on an exhausted tick list. -/
theorem waitLoop_nil (marker : List Char) (offset : Nat) (buf : List Char) :
    waitLoop marker offset buf [] = (.timedOut, buf) := rfl

/-- Unfolding equation of `waitLoop` on a data chunk. -/
theorem waitLoop_cons_chunk (marker : List Char) (offset : Nat)
    (buf d : List Char) (rest : List TickEvent) :
    waitLoop marker offset buf (.chunk d :: rest)
      = (match findQualifying marker (buf ++ d) offset with
         | some i => (.ok ((buf ++ d).drop offset) i, buf ++ d)
         | none => waitLoop marker offset (buf ++ d) rest) := rfl

/-- Unfolding equation of `waitLoop` on a stop request. -/
theorem waitLoop_cons_stop (marker : List Char) (offset : Nat)
    (buf : List Char) (rest : List TickEvent) :
    waitLoop marker offset buf (.stopRequested :: rest) = (.stopped, buf) := rfl

/-- Unfolding equation of `waitLoop` on process death. -/
theorem waitLoop_cons_died (marker : List Char) (offset : Nat)
    (buf : List Char) (rest : List TickEvent) :
    waitLoop marker offset buf (.processDied :: rest) = (.crashed, buf) := rfl

/-- Shape of a successful prompt wait: the final buffer extends the
initial one, the returned segment is exactly the bytes after the
offset, and the accepted match is a qualifying one. -/
theorem waitLoop_ok (marker : List Char) (offset : Nat) :
    ∀ (events : List TickEvent) (buf seg : List Char) (i : Nat)
      (buf2 : List Char),
    waitLoop marker offset buf events = (.ok seg i, buf2) →
    (∃ app, buf2 = buf ++ app) ∧ seg = buf2.drop offset
      ∧ findQualifying marker buf2 offset = some i := by
  intro events
  induction events with
  | nil => intro buf seg i buf2 h; exact absurd h (by simp [waitLoop_nil])
  | cons e rest ih =>
    intro buf seg i buf2 h
    cases e with
    | stopRequested => exact absurd h (by simp [waitLoop_cons_stop])
    | processDied => exact absurd h (by simp [waitLoop_cons_died])
    | chunk d =>
      rw [waitLoop_cons_chunk] at h
      cases hf : findQualifying marker (buf ++ d) offset with
      | some j =>
        rw [hf] at h
        rcases Prod.mk.injEq .. ▸ h with ⟨h1, h2⟩
        obtain ⟨hseg, hi⟩ := WaitResult.ok.inj h1
        subst h2; subst hi
        exact ⟨⟨d, rfl⟩, hseg.symm, hf⟩
      | none =>
        rw [hf] at h
        obtain ⟨⟨app, happ⟩, hseg, hfind⟩ := ih (buf ++ d) seg i buf2 h
        exact ⟨⟨d ++ app, by rw [happ, List.append_assoc]⟩, hseg, hfind⟩

/-- The prompt wait never finds a qualifying match when no fresh bytes
arrive: with a nonempty marker, an offset at the end of the buffer, and
only empty chunks, the wait times out with the buffer unchanged. -/
theorem waitLoop_no_fresh_output (marker : List Char) (offset : Nat)
    (buf : List Char) (events : List TickEvent) (hm : marker ≠ [])
    (ho : buf.length ≤ offset) (he : ∀ e ∈ events, e = .chunk []) :
    waitLoop marker offset buf events = (.timedOut, buf) := by
  induction events with
  | nil => rfl
  | cons e rest ih =>
    have h1 : e = .chunk [] := he e (List.mem_cons_self ..)
    subst h1
    rw [waitLoop_cons_chunk]
    simp only [List.append_nil, findQualifying_stale marker buf offset hm ho]
    exact ih (fun e he2 => he e (List.mem_cons_of_mem _ he2))

/-- A `stop_session` request observed during the wait, after a stretch
of polls that alone would have timed out, ends the wait with `stopped`
at the buffer reached so far. -/
theorem waitLoop_stopped (marker : List Char) (offset : Nat) :
    ∀ (pre : List TickEvent) (buf b : List Char) (post : List TickEvent),
    waitLoop marker offset buf pre = (.timedOut, b) →
    waitLoop marker offset buf (pre ++ .stopRequested :: post)
      = (.stopped, b) := by
  intro pre
  induction pre with
  | nil =>
    intro buf b post h
    have hb : b = buf := (Prod.mk.injEq .. ▸ h).2.symm
    subst hb
    rfl
  | cons e pre2 ih =>
    intro buf b post h
    cases e with
    | stopRequested =>
      rw [waitLoop_cons_stop] at h
      exact absurd (Prod.mk.injEq .. ▸ h).1 (by simp)
    | processDied =>
      rw [waitLoop_cons_died] at h
      exact absurd (Prod.mk.injEq .. ▸ h).1 (by simp)
    | chunk d =>
      rw [waitLoop_cons_chunk] at h
      rw [List.cons_append, waitLoop_cons_chunk]
      cases hf : findQualifying marker (buf ++ d) offset with
      | some j =>
        rw [hf] at h
        exact absurd (Prod.mk.injEq .. ▸ h).1 (by simp)
      | none =>
        rw [hf] at h
        exact ih (buf ++ d) b post h

/-- A successful submission appends exactly the returned segment to the
buffer and leaves the Session `Ready`. -/
theorem submitCommand_ok_append (s : Session) (cmd : List Char)
    (events : List TickEvent) (seg : List Char) (s2 : Session)
    (h : submitCommand s cmd events = (.ok seg, s2)) :
    s2.buffer = s.buffer ++ seg ∧ s2.state = .Ready := by
  rw [submitCommand] at h
  cases hst : s.state with
  | Busy => rw [hst] at h; exact absurd (Prod.mk.injEq .. ▸ h).1 (by simp)
  | Ready =>
    rw [hst] at h
    simp only at h
    cases hw : waitLoop s.marker s.buffer.length s.buffer events with
    | mk r buf2 =>
      cases r with
      | ok seg2 i =>
        rw [hw] at h
        obtain ⟨h1, h2⟩ := Prod.mk.injEq .. ▸ h
        have hseg : seg2 = seg := Except.ok.inj h1
        subst hseg
        obtain ⟨-, hdrop, -⟩ :=
          waitLoop_ok s.marker s.buffer.length events s.buffer seg2 i buf2 hw
        obtain ⟨app, happ⟩ :=
          (waitLoop_ok s.marker s.buffer.length events s.buffer seg2 i buf2 hw).1
        subst h2
        constructor
        · show buf2 = s.buffer ++ seg2
          rw [happ] at hdrop ⊢
          rw [hdrop, List.drop_left]
        · rfl
      | timedOut => rw [hw] at h; exact absurd (Prod.mk.injEq .. ▸ h).1 (by simp)
      | stopped => rw [hw] at h; exact absurd (Prod.mk.injEq .. ▸ h).1 (by simp)
      | crashed => rw [hw] at h; exact absurd (Prod.mk.injEq .. ▸ h).1 (by simp)
  | NotStarted => rw [hst] at h; exact absurd (Prod.mk.injEq .. ▸ h).1 (by simp)
  | Starting => rw [hst] at h; exact absurd (Prod.mk.injEq .. ▸ h).1 (by simp)
  | TimedOut => rw [hst] at h; exact absurd (Prod.mk.injEq .. ▸ h).1 (by simp)
  | Crashed => rw [hst] at h; exact absurd (Prod.mk.injEq .. ▸ h).1 (by simp)
  | Stopped => rw [hst] at h; exact absurd (Prod.mk.injEq .. ▸ h).1 (by simp)

/-- No submission path touches the script staging files. -/
theorem submitCommand_tempFiles (s : Session) (cmd : List Char)
    (events : List TickEvent) :
    (submitCommand s cmd events).2.tempFiles = s.tempFiles := by
  rw [submitCommand]
  cases s.state <;> simp only
  case Ready =>
    cases hw : waitLoop s.marker s.buffer.length s.buffer events with
    | mk r buf2 => cases r <;> rfl

/-- The retained bytes of a capped buffer are always a suffix (a
`drop`) of the initial contents followed by everything ever pushed. -/
theorem pushAll_suffix (chunks : List (List Char)) :
    ∀ b : OutputBuffer, ∃ k,
      (pushAll b chunks).data = (b.data ++ chunks.flatten).drop k := by
  induction chunks with
  | nil => intro b; exact ⟨0, by simp [pushAll]⟩
  | cons c cs ih =>
    intro b
    obtain ⟨k, hk⟩ := ih (pushChunk b c)
    refine ⟨(b.data ++ c).length - b.cap + k, ?_⟩
    have h1 : (pushChunk b c).data
        = (b.data ++ c).drop ((b.data ++ c).length - b.cap) := rfl
    have h2 : (b.data ++ c).drop ((b.data ++ c).length - b.cap) ++ cs.flatten
        = ((b.data ++ c) ++ cs.flatten).drop ((b.data ++ c).length - b.cap) :=
      (List.drop_append_of_le_length (Nat.sub_le ..)).symm
    show (pushAll (pushChunk b c) cs).data = _
    rw [hk, h1, h2, List.drop_drop]
    simp [List.append_assoc]


/-! ## Claim theorems -/

/-- C1: for every command submitted while the Session is Ready, a
prompt-marker match is accepted only if it occurs strictly after the
byte offset recorded at command-submission time (the buffer length just
before the command was written); the output segment returned to the
caller contains only bytes appended strictly after that pre-submission
offset (the final buffer is the old buffer followed by exactly the
returned segment); and a marker occurrence entirely within
pre-submission history — with no fresh output at all — never causes the
command to be reported complete. -/
theorem session_prompt_match_after_offset :
    (∀ (s : Session) (cmd seg : List Char) (events : List TickEvent)
       (s2 : Session),
       submitCommand s cmd events = (.ok seg, s2) →
       s2.buffer = s.buffer ++ seg)
  ∧ (∀ (s : Session) (events : List TickEvent) (seg : List Char)
       (i : Nat) (buf2 : List Char),
       waitLoop s.marker s.buffer.length s.buffer events = (.ok seg i, buf2) →
       s.buffer.length ≤ i)
  ∧ (∀ (s : Session) (cmd : List Char) (events : List TickEvent),
       s.state = .Ready → s.marker ≠ [] →
       (∀ e ∈ events, e = .chunk []) →
       (submitCommand s cmd events).1 = .error .PromptTimeoutError) := by
  refine ⟨?_, ?_, ?_⟩
  · intro s cmd seg events s2 h
    exact (submitCommand_ok_append s cmd events seg s2 h).1
  · intro s events seg i buf2 h
    obtain ⟨-, -, hfind⟩ :=
      waitLoop_ok s.marker s.buffer.length events s.buffer seg i buf2 h
    exact (findQualifying_le _ _ _ _ hfind).1
  · intro s cmd events hst hm he
    rw [submitCommand, hst]
    simp only
    rw [waitLoop_no_fresh_output s.marker s.buffer.length s.buffer events hm
        le_rfl he]

/-- C1 witness: a concrete successful run (fresh output `4\n>`, match
at index 2 ≥ offset 0, segment exactly the fresh bytes) and a concrete
stale run (marker already in history, no fresh output, command times
out instead of completing). -/
theorem session_prompt_match_after_offset_witness :
    exAfter1.buffer = exReady.buffer ++ "4\n>".data
  ∧ exReady.buffer.length ≤ 2
  ∧ (submitCommand exStale "pwd".data [.chunk []]).1
      = .error .PromptTimeoutError := by
  refine ⟨?_, ?_, ?_⟩
  · exact session_prompt_match_after_offset.1 exReady "print(2+2)".data
      "4\n>".data [.chunk "4\n>".data] exAfter1 rfl
  · exact session_prompt_match_after_offset.2.1 exReady
      [.chunk "4\n>".data] "4\n>".data 2 "4\n>".data rfl
  · exact session_prompt_match_after_offset.2.2 exStale "pwd".data
      [.chunk []] rfl (by decide) (by decide)

/-- C2: at most one command is in flight per Session: a submission made
while the Session is Busy is rejected with `SessionBusyError` and
changes nothing, and the output segments of two sequentially completed
commands occupy disjoint consecutive slices of the buffer — they never
interleave. -/
theorem session_exclusive_submission :
    (∀ (s : Session) (cmd : List Char) (events : List TickEvent),
       s.state = .Busy →
       submitCommand s cmd events = (.error .SessionBusyError, s))
  ∧ (∀ (s : Session) (cmdA cmdB : List Char) (evA evB : List TickEvent)
       (segA segB : List Char) (sA sB : Session),
       submitCommand s cmdA evA = (.ok segA, sA) →
       submitCommand sA cmdB evB = (.ok segB, sB) →
       sA.buffer = s.buffer ++ segA
         ∧ sB.buffer = s.buffer ++ segA ++ segB) := by
  refine ⟨?_, ?_⟩
  · intro s cmd events hst
    rw [submitCommand, hst]
  · intro s cmdA cmdB evA evB segA segB sA sB hA hB
    have h1 := (submitCommand_ok_append s cmdA evA segA sA hA).1
    have h2 := (submitCommand_ok_append sA cmdB evB segB sB hB).1
    exact ⟨h1, by rw [h2, h1]⟩

/-- C2 witness: a Busy session rejects a submission unchanged, and a
concrete pair of sequential commands yields adjacent non-interleaved
segments `4\n>` then `6>`. -/
theorem session_exclusive_submission_witness :
    submitCommand exBusy "ls".data [] = (.error .SessionBusyError, exBusy)
  ∧ (exAfter1.buffer = exReady.buffer ++ "4\n>".data
      ∧ exAfter2.buffer = exReady.buffer ++ "4\n>".data ++ "6>".data) := by
  refine ⟨?_, ?_⟩
  · exact session_exclusive_submission.1 exBusy "ls".data [] rfl
  · exact session_exclusive_submission.2 exReady "print(2+2)".data
      "print(3+3)".data [.chunk "4\n>".data] [.chunk "6>".data]
      "4\n>".data "6>".data exAfter1 exAfter2 rfl rfl

/-- C3: when no qualifying prompt match appears within the timeout, the
submission fails with `PromptTimeoutError`, the child process is not
cancelled (`childAlive` unchanged), and the Session transitions to
TimedOut; if a qualifying prompt later appears in fresh output, a
subsequent `get_status` observes the Session back in Ready. -/
theorem session_prompt_timeout_recovery :
    (∀ (s : Session) (cmd : List Char) (events : List TickEvent)
       (b : List Char),
       s.state = .Ready →
       waitLoop s.marker s.buffer.length s.buffer events = (.timedOut, b) →
       (submitCommand s cmd events).1 = .error .PromptTimeoutError
       ∧ (submitCommand s cmd events).2.state = .TimedOut
       ∧ (submitCommand s cmd events).2.childAlive = s.childAlive)
  ∧ (∀ (s : Session) (chunk : List Char) (i : Nat),
       s.state = .TimedOut →
       findQualifying s.marker (s.buffer ++ chunk) s.lastOffset = some i →
       (getStatus (monitorStep s (.data chunk))).1 = .Ready) := by
  refine ⟨?_, ?_⟩
  · intro s cmd events b hst hw
    rw [submitCommand, hst]
    simp only
    rw [hw]
    exact ⟨rfl, rfl, rfl⟩
  · intro s chunk i hst hfind
    obtain ⟨st, buf, lo, mk, ca, tf⟩ := s
    simp only at hst hfind
    subst hst
    simp only [monitorStep, getStatus, hfind]

/-- C3 witness: a concrete command that times out with the child left
alive, and a concrete TimedOut session that heals to Ready after the
prompt arrives in fresh output. -/
theorem session_prompt_timeout_recovery_witness :
    ((submitCommand exReady "sleep 99".data []).1
        = .error .PromptTimeoutError
      ∧ (submitCommand exReady "sleep 99".data []).2.state = .TimedOut
      ∧ (submitCommand exReady "sleep 99".data []).2.childAlive
          = exReady.childAlive)
  ∧ (getStatus (monitorStep exTimedOut (.data ['>']))).1 = .Ready := by
  refine ⟨?_, ?_⟩
  · exact session_prompt_timeout_recovery.1 exReady "sleep 99".data [] []
      rfl rfl
  · exact session_prompt_timeout_recovery.2 exTimedOut ['>'] 0 rfl rfl

/-- C4: `stop_session` in any state terminates the child process and
transitions the Session to Stopped; a command submission in flight when
the stop request arrives completes with `SessionStoppedError` (the wait
loop is a total function, so it never hangs). -/
theorem session_stop_terminates :
    (∀ s : Session, (stopSession s).state = .Stopped
       ∧ (stopSession s).childAlive = false)
  ∧ (∀ (s : Session) (cmd : List Char) (pre post : List TickEvent)
       (b : List Char),
       s.state = .Ready →
       waitLoop s.marker s.buffer.length s.buffer pre = (.timedOut, b) →
       (submitCommand s cmd (pre ++ .stopRequested :: post)).1
         = .error .SessionStoppedError
       ∧ (submitCommand s cmd (pre ++ .stopRequested :: post)).2.state
         = .Stopped) := by
  refine ⟨fun s => ⟨rfl, rfl⟩, ?_⟩
  intro s cmd pre post b hst hw
  have h2 := waitLoop_stopped s.marker s.buffer.length pre s.buffer b post hw
  rw [submitCommand, hst]
  simp only
  rw [h2]
  exact ⟨rfl, rfl⟩

/-- C4 witness: stopping a concrete Ready session, and a concrete
in-flight submission that observes the stop request and completes with
`SessionStoppedError` in state Stopped. -/
theorem session_stop_terminates_witness :
    ((stopSession exReady).state = .Stopped
      ∧ (stopSession exReady).childAlive = false)
  ∧ ((submitCommand exReady "make all".data [.stopRequested]).1
        = .error .SessionStoppedError
      ∧ (submitCommand exReady "make all".data [.stopRequested]).2.state
          = .Stopped) := by
  refine ⟨session_stop_terminates.1 exReady, ?_⟩
  exact session_stop_terminates.2 exReady "make all".data [] [] [] rfl rfl

/-- C5: a read error or end-of-stream on the child's output marks the
Session Crashed (also when the child is killed externally while Ready);
afterwards `get_status` reports Crashed — not Ready — and neither
queries, submissions, nor late data revive the Session; only an
explicit restart creates a fresh one. -/
theorem session_crash_terminal :
    (∀ s : Session, (monitorStep s .readError).state = .Crashed
       ∧ (monitorStep s .endOfStream).state = .Crashed)
  ∧ (∀ (s : Session) (cmd chunk : List Char) (events : List TickEvent),
       s.state = .Crashed →
       (getStatus s).1 = .Crashed ∧ (getStatus s).2 = s
       ∧ (submitCommand s cmd events).2.state = .Crashed
       ∧ (monitorStep s (.data chunk)).state = .Crashed)
  ∧ (∀ s : Session, s.state = .Ready →
       (getStatus (monitorStep s .endOfStream)).1 = .Crashed)
  ∧ (∀ s : Session, (restartSession s).state = .Starting
       ∧ (restartSession s).buffer = []
       ∧ (restartSession s).childAlive = true) := by
  refine ⟨fun s => ⟨rfl, rfl⟩, ?_, ?_, fun s => ⟨rfl, rfl, rfl⟩⟩
  · intro s cmd chunk events hst
    obtain ⟨st, buf, lo, mk, ca, tf⟩ := s
    simp only at hst
    subst hst
    exact ⟨rfl, rfl, rfl, rfl⟩
  · intro s hst
    obtain ⟨st, buf, lo, mk, ca, tf⟩ := s
    rfl

/-- C5 witness: killing the child externally while a concrete session
is Ready makes the next `get_status` report Crashed; a concrete Crashed
session stays Crashed under queries, submissions, and late data;
restarting it yields a fresh Starting session. -/
theorem session_crash_terminal_witness :
    (getStatus (monitorStep exReady .endOfStream)).1 = .Crashed
  ∧ ((getStatus exCrashed).1 = .Crashed ∧ (getStatus exCrashed).2 = exCrashed
      ∧ (submitCommand exCrashed "ls".data []).2.state = .Crashed
      ∧ (monitorStep exCrashed (.data "late\n".data)).state = .Crashed)
  ∧ ((restartSession exCrashed).state = .Starting
      ∧ (restartSession exCrashed).buffer = []
      ∧ (restartSession exCrashed).childAlive = true) := by
  refine ⟨?_, ?_, ?_⟩
  · exact session_crash_terminal.2.2.1 exReady rfl
  · exact session_crash_terminal.2.1 exCrashed "ls".data "late\n".data [] rfl
  · exact session_crash_terminal.2.2.2 exCrashed

/-- C6: the temporary file staged for a script submission is absent
after the submission completes, on every exit path — normal completion,
timeout, stop, or the Session crashing mid-script (the poll trace
`events` ranges over all of these). -/
theorem session_script_tempfile_removed :
    ∀ (s : Session) (body wrapper : List Char) (tempName : String)
      (events : List TickEvent),
      tempName ∉ s.tempFiles →
      tempName ∉ (submitScript s body wrapper tempName events).2.tempFiles := by
  intro s body wrapper tempName events hfresh
  simp only [submitScript]
  rw [submitCommand_tempFiles]
  simp only
  rw [List.erase_cons_head]
  exact hfresh

/-- C6 witness: a concrete script submission during which the process
crashes mid-script; the staged file is absent afterwards. -/
theorem session_script_tempfile_removed_witness :
    "/tmp/script_1.sh" ∉ (submitScript exReady "x = 1\nprint(x+1)".data
      "source {script}".data "/tmp/script_1.sh" [.processDied]).2.tempFiles := by
  exact session_script_tempfile_removed exReady "x = 1\nprint(x+1)".data
    "source {script}".data "/tmp/script_1.sh" [.processDied]
    (by simp [exReady])

/-- C7: the OutputBuffer preserves receipt order: a chunk that fits
under the cap is appended at the end unchanged, and whatever the cap,
the retained sequence after any series of appends is a contiguous
suffix (a `drop`) of the concatenation of everything ever appended —
truncation only ever removes the oldest bytes and never reorders. -/
theorem outputBuffer_receipt_order :
    (∀ (b : OutputBuffer) (chunk : List Char),
       b.data.length + chunk.length ≤ b.cap →
       (pushChunk b chunk).data = b.data ++ chunk)
  ∧ (∀ (cap : Nat) (chunks : List (List Char)), ∃ k,
       (pushAll ⟨cap, []⟩ chunks).data = chunks.flatten.drop k) := by
  refine ⟨?_, ?_⟩
  · intro b chunk hle
    show (b.data ++ chunk).drop ((b.data ++ chunk).length - b.cap)
      = b.data ++ chunk
    have h1 : (b.data ++ chunk).length - b.cap = 0 := by
      rw [List.length_append]; omega
    rw [h1, List.drop_zero]
  · intro cap chunks
    obtain ⟨k, hk⟩ := pushAll_suffix chunks ⟨cap, []⟩
    exact ⟨k, by simpa using hk⟩

/-- C7 witness: a concrete in-cap append keeps the bytes in order, and
a concrete over-cap run retains a contiguous suffix of the appended
stream. -/
theorem outputBuffer_receipt_order_witness :
    (pushChunk ⟨4, ['a']⟩ ['b']).data = ['a'] ++ ['b']
  ∧ ∃ k, (pushAll ⟨4, []⟩ [['a', 'b'], ['c', 'd', 'e']]).data
      = [['a', 'b'], ['c', 'd', 'e']].flatten.drop k := by
  refine ⟨?_, ?_⟩
  · exact outputBuffer_receipt_order.1 ⟨4, ['a']⟩ ['b'] (by decide)
  · exact outputBuffer_receipt_order.2 4 [['a', 'b'], ['c', 'd', 'e']]

/-- C8 counterexample: the session manager does not expose exactly five
logical operations regardless of wire format — the stateless variant's
tool table (README lines 241–248) lists six tools, so the two wire
variants do not both expose five. -/
theorem toolsession_not_five_everywhere :
    ¬ (persistentVariantTools.length = 5
        ∧ statelessVariantTools.length = 5) := by decide

/-- C8 (amended): the persistent-session ToolSession variant exposes
exactly five MCP tools, while the stateless variant exposes six; the
operation count is not five regardless of wire format. -/
theorem toolsession_variant_tool_counts :
    persistentVariantTools.length = 5
  ∧ statelessVariantTools.length = 6 := by decide

/-- C9: `read_text` returns the empty-clipboard informational message
(starting with 📋, not an error marker) for an empty clipboard; returns
the text in full when it is non-empty and at most 10000 characters; and
for longer text returns the truncated reply holding exactly the first
10000 characters together with a truncation notice stating the original
length. -/
theorem clipjs_read_text_spec (text : List Char) :
    (text = [] → readClipboardText text = emptyClipboardMsg
        ∧ (readClipboardText text).head? = some '📋')
  ∧ (text ≠ [] → text.length ≤ 10000 →
        readClipboardText text = fullTextHeader ++ text)
  ∧ (10000 < text.length →
        readClipboardText text = truncHeader ++ toLocaleString text.length
          ++ truncMid ++ text.take 10000 ++ truncTail) := by
  refine ⟨?_, ?_, ?_⟩
  · intro h
    subst h
    exact ⟨by decide, by decide⟩
  · intro h1 h2
    rw [readClipboardText, if_neg h1,
        if_neg (by omega : ¬ 10000 < text.length)]
  · intro h
    have h0 : text ≠ [] := by
      intro h0
      subst h0
      simp at h
    rw [readClipboardText, if_neg h0, if_pos h]

/-- C9 witness: the three branches at concrete inputs — empty
clipboard, a two-character text returned in full, and a 10001-character
text returned truncated to its first 10000 characters with the length
notice. -/
theorem clipjs_read_text_spec_witness :
    readClipboardText [] = emptyClipboardMsg
  ∧ readClipboardText "hi".data = fullTextHeader ++ "hi".data
  ∧ readClipboardText longText = truncHeader ++ toLocaleString longText.length
      ++ truncMid ++ longText.take 10000 ++ truncTail := by
  refine ⟨?_, ?_, ?_⟩
  · exact ((clipjs_read_text_spec []).1 rfl).1
  · exact (clipjs_read_text_spec "hi".data).2.1 (by decide) (by decide)
  · exact (clipjs_read_text_spec longText).2.2
      (by rw [longText, List.length_replicate]; omega)

/-- C10 (code bug): on Windows the temporary image file is indeed absent
after `write_image` returns on the success path, the PowerShell-failure
path, and the file-write-failure path — but a call with undecodable
base64 data does NOT return an error message: Node
`Buffer.from(s, 'base64')` never throws, so the `❌ Invalid base64`
catch branch is dead, the garbage decodes to an empty buffer, and when
the external calls succeed the reply is the ✅ success message. -/
theorem clipjs_write_image_garbage_base64 :
    ((writeClipboardImage "!!!!".data "PNG".data true "clipboard_image_1.png"
        true true "err".data []).1.head? = some '✅')
  ∧ "clipboard_image_1.png" ∉ (writeClipboardImage "!!!!".data "PNG".data true
        "clipboard_image_1.png" true true "err".data []).2
  ∧ ((writeClipboardImage "iVBORw0KGgo=".data "PNG".data true
        "clipboard_image_2.png" true false "ps failed".data []).1.head?
        = some '❌')
  ∧ "clipboard_image_2.png" ∉ (writeClipboardImage "iVBORw0KGgo=".data
        "PNG".data true "clipboard_image_2.png" true false
        "ps failed".data []).2
  ∧ "clipboard_image_3.png" ∉ (writeClipboardImage "iVBORw0KGgo=".data
        "PNG".data true "clipboard_image_3.png" false true
        "write failed".data []).2 := by decide
